/-
Verification of the DocOrchestrator content-generation pipeline
(orchestrator.py): session store, pending index, topic resolution,
stage runners and the staged state-machine driver.

The Python code is shallowly embedded: file contents, subprocess
outcomes and clock readings are passed as explicit parameters, and
each function below mirrors the control flow of the source function
of the same name.  Console/log output that carries behavioural
meaning (error reporting) is modelled as a list of message strings
with the rich markup tags elided; pure logging is not modelled.
-/
import Mathlib

namespace DocOrchestrator

/-! ### Python string primitives -/

/-- Model of Python `sub in s` (substring containment) on char lists. -/
def containsSub (sub : List Char) : List Char → Bool
  | [] => sub.isPrefixOf []
  | c :: rest => sub.isPrefixOf (c :: rest) || containsSub sub rest

/-- Model of Python `s.count(sub)` for a non-empty `sub`:
counts non-overlapping occurrences, scanning left to right. -/
def countSubAux (sub : List Char) : List Char → Nat
  | [] => 0
  | c :: rest =>
    if sub.isPrefixOf (c :: rest) then
      countSubAux sub (rest.drop (sub.length - 1)) + 1
    else
      countSubAux sub rest
termination_by l => l.length
decreasing_by
  · have h := List.length_drop (sub.length - 1) rest
    simp only [List.length_cons]
    omega
  · simp only [List.length_cons]
    omega

/-- Python `s.count(sub)` on strings (used with non-empty literals). -/
def countStr (s sub : String) : Nat := countSubAux sub.toList s.toList

/-- Python `sub in s` on strings. -/
def containsStr (s sub : String) : Bool := containsSub sub.toList s.toList

/-- Accumulating scanner for `pyWords`: the first argument is the
current (reversed) word. -/
def wordsAux : List Char → List Char → List String
  | acc, [] => if acc = [] then [] else [String.mk acc.reverse]
  | acc, c :: rest =>
    if c.isWhitespace then
      if acc = [] then wordsAux [] rest
      else String.mk acc.reverse :: wordsAux [] rest
    else wordsAux (c :: acc) rest

/-- Python `s.split()`: whitespace-delimited words, empty pieces dropped. -/
def pyWords (s : String) : List String := wordsAux [] s.toList

/-- Python `s.strip()`: whitespace removed from both ends. -/
def pyStrip (s : String) : String :=
  String.mk
    (((s.toList.dropWhile Char.isWhitespace).reverse.dropWhile
      Char.isWhitespace).reverse)

/-- Python `s.startswith(pre)`. -/
def pyStartsWith (s pre : String) : Bool := pre.toList.isPrefixOf s.toList

/-- Python `s.replace(a, b)` for single characters. -/
def replaceChar (a b : Char) (s : String) : String :=
  String.mk (s.toList.map fun c => if c = a then b else c)

/-- Accumulating scanner for `splitLines`: the first argument is the
current (reversed) line. -/
def splitLinesAux : List Char → List Char → List String
  | acc, [] => [String.mk acc.reverse]
  | acc, c :: rest =>
    if c = '\n' then String.mk acc.reverse :: splitLinesAux [] rest
    else splitLinesAux (c :: acc) rest

/-- Python `content.split('\n')`. -/
def splitLines (s : String) : List String := splitLinesAux [] s.toList

/-- One step of Python `str.title()`: the flag records whether the
previous character was alphabetic. -/
def pyTitleAux : Bool → List Char → List Char
  | _, [] => []
  | prevAlpha, c :: rest =>
    let c2 := if c.isAlpha then (if prevAlpha then c.toLower else c.toUpper) else c
    c2 :: pyTitleAux c.isAlpha rest

/-- Model of Python `str.title()`. -/
def pyTitle (s : String) : String := String.mk (pyTitleAux false s.toList)

/-- `pathlib.Path(p).name`: the component after the last separator. -/
def pathName (p : String) : String :=
  String.mk ((p.toList.reverse.takeWhile fun c => c ≠ '/').reverse)

/-- `pathlib.Path(p).parent` rendered as a string (`"."` for a bare
file name, as in pathlib). -/
def pathParent (p : String) : String :=
  if p.toList.contains '/' then
    String.mk (((p.toList.reverse.dropWhile fun c => c ≠ '/').drop 1).reverse)
  else "."

/-- `pathlib.Path(p).stem`: the name without its final dot-suffix
(a leading dot alone does not count as a suffix). -/
def pathStem (p : String) : String :=
  let n := pathName p
  match n.toList.reverse.dropWhile (fun c => c ≠ '.') with
  | [] => n
  | [_] => n
  | _ :: restRev => String.mk restRev.reverse

/-- Scanner for `afterFirstMarker`: the tail after the first
occurrence of `marker`, if any. -/
def afterFirstAux (marker : List Char) : List Char → Option (List Char)
  | [] => none
  | c :: rest =>
    if marker.isPrefixOf (c :: rest) then
      some ((c :: rest).drop marker.length)
    else
      afterFirstAux marker rest

/-- Python `line.split(marker, 1)[-1]` for a non-empty `marker`:
everything after the first occurrence of `marker`, or the whole
string when `marker` is absent. -/
def afterFirstMarker (s marker : String) : String :=
  match afterFirstAux marker.toList s.toList with
  | some tail => String.mk tail
  | none => s

/-- Python `sorted` over path strings (stable sort by `≤`). -/
def pySorted (l : List String) : List String := l.mergeSort

/-- `mentions s sub`: `sub` occurs inside `s`. -/
def mentions (s sub : String) : Prop := ∃ pre post, s = pre ++ sub ++ post

/-! ### Configuration (`OrchestratorConfig` dataclass) -/

structure OrchestratorConfig where
  name : String
  global_mode : String
  idea_source : String
  idea_start_date : Option String
  idea_label : Option String
  idea_email_subject : Option String
  idea_focus : Option String
  idea_folder_id : Option String
  idea_combined_topics : Bool
  idea_fast_mode : Bool
  doc_style : String
  doc_audience : String
  doc_type : String
  doc_size : String
  doc_customer_story : Option String
  doc_output : String
  doc_mode_override : Option String
  stage1_timeout : Nat
  stage2_timeout : Nat
  retry_on_failure : Bool
  save_session : Bool
  idea_generator_path : Option String := none
  doc_generator_path : Option String := none
  log_level : String := "INFO"
  use_manifest : Bool := true
  batch_mode : Bool := false
  idea_select_all : Bool := true
deriving Repr, DecidableEq

/-! ### Pending index (`pending_reviews.json`) -/

/-- One entry of the `pending_reviews` list. -/
structure PendingEntry where
  session_id : String
  created_at : String
  topic_count : Nat
  config_name : String
deriving Repr, DecidableEq

/-- One entry of the `reviewed_awaiting_generation` list. -/
structure AwaitingEntry where
  session_id : String
  reviewed_at : String
  selected_count : Nat
deriving Repr, DecidableEq

/-- The pending index file contents. -/
structure PendingIndex where
  pending_reviews : List PendingEntry
  reviewed_awaiting_generation : List AwaitingEntry
deriving Repr, DecidableEq

/-- The index a mutating operation starts from when the file is
missing: `{'pending_reviews': [], 'reviewed_awaiting_generation': []}`. -/
def emptyIndex : PendingIndex := ⟨[], []⟩

/-- Reading the index file: `none` models a missing file. -/
def loadIndexOrEmpty : Option PendingIndex → PendingIndex
  | some idx => idx
  | none => emptyIndex

/-- `_add_to_pending_reviews`: load the index (or empty lists when the
file is missing), append an entry for the session, write it back. -/
def add_to_pending_reviews (file : Option PendingIndex)
    (sid created : String) (topicCount : Nat) (configName : String) :
    Option PendingIndex :=
  let index := loadIndexOrEmpty file
  some { index with
    pending_reviews :=
      index.pending_reviews ++ [⟨sid, created, topicCount, configName⟩] }

/-- `_move_to_awaiting_generation`: when the index file is missing the
function returns without writing anything; otherwise it removes every
`pending_reviews` entry for the session id and appends an entry to
`reviewed_awaiting_generation`. -/
def move_to_awaiting_generation (file : Option PendingIndex)
    (sid reviewedAt : String) (selectedCount : Nat) : Option PendingIndex :=
  match file with
  | none => none
  | some index =>
    some { pending_reviews :=
             index.pending_reviews.filter fun s => s.session_id != sid
           reviewed_awaiting_generation :=
             index.reviewed_awaiting_generation ++
               [⟨sid, reviewedAt, selectedCount⟩] }

/-- `_remove_from_awaiting_generation`: when the index file is missing
the function returns without writing anything; otherwise it removes
every `reviewed_awaiting_generation` entry for the session id. -/
def remove_from_awaiting_generation (file : Option PendingIndex)
    (sid : String) : Option PendingIndex :=
  match file with
  | none => none
  | some index =>
    some { index with
      reviewed_awaiting_generation :=
        index.reviewed_awaiting_generation.filter fun s =>
          s.session_id != sid }

/-- Is a session id present in `pending_reviews`? -/
def PendingIndex.pendingHas (idx : PendingIndex) (sid : String) : Bool :=
  idx.pending_reviews.any fun e => e.session_id == sid

/-- Is a session id present in `reviewed_awaiting_generation`? -/
def PendingIndex.awaitingHas (idx : PendingIndex) (sid : String) : Bool :=
  idx.reviewed_awaiting_generation.any fun e => e.session_id == sid

/-- One mutating pending-index call together with its arguments. -/
inductive IndexOp where
  | add (sid created : String) (topicCount : Nat) (configName : String)
  | move (sid reviewedAt : String) (selectedCount : Nat)
  | remove (sid : String)
deriving Repr, DecidableEq

/-- Apply one mutating call to the (possibly missing) index file. -/
def applyOp (st : Option PendingIndex) : IndexOp → Option PendingIndex
  | .add sid created tc cn => add_to_pending_reviews st sid created tc cn
  | .move sid r sc => move_to_awaiting_generation st sid r sc
  | .remove sid => remove_from_awaiting_generation st sid

/-- Run a sequence of mutating calls. -/
def runOps (st : Option PendingIndex) (ops : List IndexOp) :
    Option PendingIndex :=
  ops.foldl applyOp st

/-- No session id sits in both lists of the index. -/
def ExclusiveIdx (idx : PendingIndex) : Prop :=
  ∀ sid, ¬ (idx.pendingHas sid = true ∧ idx.awaitingHas sid = true)

/-- Exclusivity lifted to a possibly missing index file. -/
def Exclusive : Option PendingIndex → Prop
  | none => True
  | some idx => ExclusiveIdx idx

/-- The lifecycle guard for one call: `add` must not target a session
id currently in `reviewed_awaiting_generation`; `move` and `remove`
are always allowed. -/
def guardOk (st : Option PendingIndex) : IndexOp → Bool
  | .add sid _ _ _ => !((loadIndexOrEmpty st).awaitingHas sid)
  | .move _ _ _ => true
  | .remove _ => true

/-- A trace is in lifecycle order when every call satisfies `guardOk`
in the state where it is issued. -/
def okTrace : Option PendingIndex → List IndexOp → Bool
  | _, [] => true
  | st, op :: ops => guardOk st op && okTrace (applyOp st op) ops

/-! ### Manifest file (`ideas_manifest.json`) -/

/-- One topic entry of the manifest. -/
structure ManifestTopic where
  id : String
  title : String
  description : String
  file : String
  key_insights : List String
  notable_quotes : List String
  word_count : Nat
deriving Repr, DecidableEq

/-- The manifest written by the idea generator in batch mode. -/
structure Manifest where
  status : String
  timestamp : String
  mode : String
  model : String
  topics : List ManifestTopic
deriving Repr, DecidableEq

/-! ### Topic records (`_parse_topic_files` / `_parse_topics_from_manifest`) -/

/-- One parsed topic dict.  `manifest_data = none` models both the
markdown strategy (which stores no such key) and an empty `{}` lookup
default in the manifest strategy. -/
structure TopicMeta where
  file_path : String
  title : String
  description : String
  insights_count : Nat
  quotes_count : Nat
  size : Nat
  manifest_data : Option ManifestTopic := none
deriving Repr, DecidableEq

/-- First loop of the title extraction: a line whose stripped form
starts with `## TOPIC` yields the text after the line's first colon. -/
def extractTitleTopic : List String → Option String
  | [] => none
  | line :: rest =>
    if pyStartsWith (pyStrip line) "## TOPIC" then
      some (pyStrip (afterFirstMarker line ":"))
    else
      extractTitleTopic rest

/-- Fallback loop: the first line starting with `#`, marker stripped. -/
def extractTitleHeading : List String → Option String
  | [] => none
  | line :: rest =>
    if pyStartsWith line "#" then
      some (pyStrip (String.mk (line.toList.dropWhile fun c => c = '#')))
    else
      extractTitleHeading rest

/-- Description extraction: the text after a `**Description:**` label,
or the next line (stripped) when the label has no trailing text. -/
def extractDescription : List String → String
  | [] => ""
  | line :: rest =>
    if pyStartsWith (pyStrip line) "**Description:**" then
      let descText := pyStrip (afterFirstMarker line "**Description:**")
      if descText = "" then
        match rest with
        | next :: _ => pyStrip next
        | [] => descText
      else descText
    else
      extractDescription rest

/-- The Phase 1 body of `_parse_topic_files` for one file, given the
file's content. -/
def parse_topic_file_md (file_path content : String) : TopicMeta :=
  let lines := splitLines content
  let title :=
    match extractTitleTopic lines with
    | some t => t
    | none =>
      match extractTitleHeading lines with
      | some t => t
      | none => pyTitle (replaceChar '_' ' ' (pathStem file_path))
  let insightsRaw :=
    if containsStr content "## Key Insights" || containsStr content "## Insights" then
      countStr content "- "
    else 0
  let quotesRaw := countStr content "> " + countStr content "- \""
  { file_path := file_path
    title := title
    description := extractDescription lines
    insights_count := min insightsRaw 10
    quotes_count := min quotesRaw 10
    size := (pyWords content).length }

/-- `_parse_topic_files`, Phase 1 branch (no manifest): each file is
read and parsed from its markdown content. -/
def parse_topic_files (files : List (String × String)) : List TopicMeta :=
  files.map fun fc => parse_topic_file_md fc.1 fc.2

/-- The `topic_map` dict of `_parse_topics_from_manifest`: keyed by
file name, later manifest entries overwriting earlier ones. -/
def topicMapLookup (m : Manifest) (name : String) : Option ManifestTopic :=
  m.topics.reverse.find? fun t => pathName t.file == name

/-- `_parse_topics_from_manifest` (Phase 2): counts are taken directly
from the manifest's list lengths; a file absent from the manifest gets
the empty-dict defaults. -/
def parse_topics_from_manifest (m : Manifest) (topic_files : List String) :
    List TopicMeta :=
  topic_files.map fun fp =>
    match topicMapLookup m (pathName fp) with
    | some md =>
      { file_path := fp
        title := md.title
        insights_count := md.key_insights.length
        quotes_count := md.notable_quotes.length
        size := md.word_count
        description := md.description
        manifest_data := some md }
    | none =>
      { file_path := fp
        title := pyTitle (replaceChar '_' ' ' (pathStem fp))
        insights_count := 0
        quotes_count := 0
        size := 0
        description := ""
        manifest_data := none }

/-- Dispatch of `_parse_topic_files`: the manifest metadata is used
when `self.manifest` is set, otherwise markdown parsing.  `read`
supplies file contents. -/
def parse_topic_files_dispatch (manifest : Option Manifest)
    (read : String → String) (files : List String) : List TopicMeta :=
  match manifest with
  | some m => parse_topics_from_manifest m files
  | none => parse_topic_files (files.map fun f => (f, read f))

/-! ### Topic sourcing (`_load_topics_from_manifest` / `_discover_topic_files`) -/

/-- `_load_topics_from_manifest`: for each manifest topic whose file
exists (`exPred`), move it into the session topics directory unless it
already lives there; missing files are skipped; the collected list is
returned through `sorted`. -/
def load_topics_from_manifest (topicsDir : String)
    (exPred : String → Bool) (m : Manifest) : List String :=
  let topic_files := m.topics.filterMap fun t =>
    if exPred t.file then
      if pathParent t.file ≠ topicsDir then
        some (topicsDir ++ "/" ++ pathName t.file)
      else
        some t.file
    else
      none
  pySorted topic_files

/-- `_discover_topic_files`: glob `topic_*.md`, falling back to
`analysis_*.md` when nothing matches; every matched file is moved into
the session topics directory; the result is returned through `sorted`.
`primary` and `secondary` are the two glob results. -/
def discover_topic_files (topicsDir : String)
    (primary secondary : List String) : List String :=
  let topic_files := if primary ≠ [] then primary else secondary
  let moved := topic_files.map fun f => topicsDir ++ "/" ++ pathName f
  pySorted moved

/-! ### Session store (`session_state.json`) -/

/-- One entry of `selected_topics` as persisted by the review stage. -/
structure SelectedTopic where
  title : String
  file_path : String
deriving Repr, DecidableEq

/-- One Document Result dict: `status` is `"success"` with `output`
set, or `"failed"` with `error` set. -/
structure DocumentResult where
  topic : String
  status : String
  output : Option String := none
  error : Option String := none
deriving Repr, DecidableEq

/-- The full session state record. -/
structure SessionState where
  session_id : String
  config_file : Option String
  config_snapshot : OrchestratorConfig
  stage : String
  created_at : String
  updated_at : String
  topics : List TopicMeta
  selected_topics : Option (List SelectedTopic)
  generated_documents : List DocumentResult
deriving Repr, DecidableEq

/-- `_save_session_state`: builds the record and overwrites the file.
`prior` is the current contents of the session's state file (`none`
when it does not exist); `now` models `datetime.now().isoformat()`.
`created_at` reproduces the Python
`state_file.exists() and prior.get('created_at') or now`, where an
empty string is the falsy case. -/
def save_session_state (prior : Option SessionState)
    (cfg : OrchestratorConfig) (configFile : Option String)
    (sid now : String) (stage : String)
    (topics : Option (List TopicMeta))
    (selected : Option (List SelectedTopic))
    (documents : Option (List DocumentResult)) : SessionState :=
  { session_id := sid
    config_file := configFile
    config_snapshot := cfg
    stage := stage
    created_at :=
      match prior with
      | some p => if p.created_at ≠ "" then p.created_at else now
      | none => now
    updated_at := now
    topics := topics.getD []
    selected_topics := selected
    generated_documents := documents.getD [] }

/-- `_load_session_state`: returns the record, or raises
`FileNotFoundError` when the state file does not exist. -/
def load_session_state (sid : String) (file : Option SessionState) :
    Except String SessionState :=
  match file with
  | none => Except.error ("Session " ++ sid ++ " not found")
  | some s => Except.ok s

/-- The varying arguments of one `_save_session_state` call. -/
structure SaveArgs where
  now : String
  stage : String
  topics : Option (List TopicMeta)
  selected : Option (List SelectedTopic)
  documents : Option (List DocumentResult)
deriving Repr

/-- A sequence of further saves of the same session, each reading the
record left by the previous one. -/
def saveMany (cfg : OrchestratorConfig) (configFile : Option String)
    (sid : String) (first : SessionState) (rest : List SaveArgs) :
    SessionState :=
  rest.foldl
    (fun acc a =>
      save_session_state (some acc) cfg configFile sid a.now a.stage
        a.topics a.selected a.documents)
    first

/-! ### Stage 1 runner (`_run_stage1`) -/

/-- The observed outcome of the idea-generator subprocess. -/
structure Stage1Exec where
  returncode : Int
  stdout : String
  stderr : String
deriving Repr, DecidableEq

/-- `_run_stage1`: in interactive (non-batch) mode output is not
captured, so stdout/stderr are replaced by empty strings; a non-zero
exit returns the empty list (error lines are only logged); on success
the manifest strategy is used when `use_manifest` is on and the
manifest file exists, otherwise file discovery.  `primary` and
`secondary` are the discovery glob results in the idea generator's
directory; `exPred` is file existence for manifest-listed paths. -/
def run_stage1 (cfg : OrchestratorConfig) (res : Stage1Exec)
    (manifestFile : Option Manifest) (topicsDir : String)
    (exPred : String → Bool) (primary secondary : List String) :
    List String :=
  let result :=
    if cfg.batch_mode then res else { res with stdout := "", stderr := "" }
  if result.returncode ≠ 0 then
    []
  else
    match cfg.use_manifest, manifestFile with
    | true, some m => load_topics_from_manifest topicsDir exPred m
    | _, _ => discover_topic_files topicsDir primary secondary

/-! ### Stage 3 runner (`_run_stage2`) -/

/-- The observed outcome of one document-generator invocation:
either the process completed with an exit code and captured streams,
or `subprocess.TimeoutExpired` was raised. -/
inductive DocExec where
  | completed (returncode : Int) (stdout stderr : String)
  | timedOut
deriving Repr, DecidableEq

/-- Did this invocation time out? -/
def DocExec.isTimeout : DocExec → Bool
  | .timedOut => true
  | .completed _ _ _ => false

/-- Invocations `_run_stage2` tolerates without raising: a timeout or
a clean exit. -/
def DocExec.isBenign : DocExec → Bool
  | .timedOut => true
  | .completed rc _ _ => rc == 0

/-- One loop iteration of `_run_stage2`: classify the invocation
outcome into a Document Result, raising (`Except.error`) on a
non-zero exit when `retry_on_failure` is off. -/
def runDocGenerator (cfg : OrchestratorConfig) (topic : SelectedTopic)
    (res : DocExec) : Except String DocumentResult :=
  match res with
  | .completed rc out err =>
    if rc ≠ 0 then
      if ¬ cfg.retry_on_failure then
        Except.error ("Document generation failed: " ++ err)
      else
        Except.ok { topic := topic.title, status := "failed",
                    error := some (err.take 200) }
    else
      Except.ok { topic := topic.title, status := "success",
                  output := some out }
  | .timedOut =>
    Except.ok { topic := topic.title, status := "failed",
                error := some ("Timeout after " ++
                  toString cfg.stage2_timeout ++ " seconds") }

/-- `_run_stage2`: one sequential invocation per selected topic,
accumulating one Document Result each; an uncaught failure aborts the
batch (the exception propagates to the caller). -/
def run_stage2 (cfg : OrchestratorConfig) :
    List (SelectedTopic × DocExec) → Except String (List DocumentResult)
  | [] => Except.ok []
  | (t, r) :: rest =>
    match runDocGenerator cfg t r with
    | Except.error e => Except.error e
    | Except.ok d =>
      match run_stage2 cfg rest with
      | Except.error e => Except.error e
      | Except.ok ds => Except.ok (d :: ds)

/-! ### Orchestrator entry points -/

/-- Result of `run_generate_ideas`: the exit code, the session state
file and the pending index file after the call. -/
structure GenIdeasResult where
  exit : Nat
  sessionFile : Option SessionState
  indexFile : Option PendingIndex
deriving Repr

/-- `run_generate_ideas`: run Stage 1; when the topic list is empty,
exit with code 1 leaving both files untouched; otherwise parse the
topics, save the session at stage `ideas_generated` and register it in
`pending_reviews` (whose `topic_count` re-globs and re-parses the
session topics directory, `globTopics`). -/
def run_generate_ideas (cfg : OrchestratorConfig)
    (configPath : Option String) (sid now : String)
    (sessionFile : Option SessionState) (indexFile : Option PendingIndex)
    (res : Stage1Exec) (manifestFile : Option Manifest)
    (topicsDir : String) (exPred : String → Bool)
    (primary secondary : List String)
    (read : String → String) (globTopics : List String) : GenIdeasResult :=
  let topic_files :=
    run_stage1 cfg res manifestFile topicsDir exPred primary secondary
  if topic_files = [] then
    { exit := 1, sessionFile := sessionFile, indexFile := indexFile }
  else
    let manifestUsed :=
      match cfg.use_manifest, manifestFile with
      | true, some m => some m
      | _, _ => none
    let topics := parse_topic_files_dispatch manifestUsed read topic_files
    let session :=
      save_session_state sessionFile cfg configPath sid now
        "ideas_generated" (some topics) none none
    let topicCount :=
      (parse_topic_files_dispatch manifestUsed read globTopics).length
    let index2 := add_to_pending_reviews indexFile sid now topicCount cfg.name
    { exit := 0, sessionFile := some session, indexFile := index2 }

/-- Result of `run_generate_documents`: exit code, the two files after
the call, and the console messages that report errors or completion
(rich markup elided). -/
structure GenDocsResult where
  exit : Nat
  sessionFile : Option SessionState
  indexFile : Option PendingIndex
  messages : List String
deriving Repr

/-- `run_generate_documents`: load the session (a missing session file
raises and is reported as an error); a stage other than `reviewed` is
an error that leaves both files untouched, with an extra informational
line for the `ideas_generated` and `completed` stages; otherwise run
Stage 3 over the selected topics (`exec` pairs each with its
invocation outcome), save the session at stage `completed` with the
Document Results and drop it from `reviewed_awaiting_generation`.  A
raised stage error (failure tolerance off) is caught and reported with
exit code 1, before any save. -/
def run_generate_documents (configPath : Option String)
    (sessionFile : Option SessionState) (indexFile : Option PendingIndex)
    (exec : List DocExec) (now sid : String) : GenDocsResult :=
  match sessionFile with
  | none =>
    { exit := 1, sessionFile := none, indexFile := indexFile,
      messages := ["Error: Session " ++ sid ++ " not found"] }
  | some state =>
    if state.stage ≠ "reviewed" then
      { exit := 1, sessionFile := some state, indexFile := indexFile,
        messages :=
          ("Error: Session " ++ sid ++ " is in stage '" ++ state.stage ++
            "', expected 'reviewed'") ::
          (if state.stage = "ideas_generated" then
            ["Session not yet reviewed. Use --review to select topics first."]
          else if state.stage = "completed" then
            ["Session already completed."]
          else []) }
    else
      match state.selected_topics with
      | none =>
        -- `len(state['selected_topics'])` raises TypeError on null,
        -- caught by the surrounding handler.
        { exit := 1, sessionFile := some state, indexFile := indexFile,
          messages := ["Error: object of type NoneType has no len"] }
      | some sel =>
        match run_stage2 state.config_snapshot (sel.zip exec) with
        | Except.error e =>
          { exit := 1, sessionFile := some state, indexFile := indexFile,
            messages := ["Error: " ++ e] }
        | Except.ok documents =>
          let newState :=
            save_session_state (some state) state.config_snapshot
              configPath sid now "completed" (some state.topics)
              state.selected_topics (some documents)
          { exit := 0, sessionFile := some newState,
            indexFile := remove_from_awaiting_generation indexFile sid,
            messages := ["Session completed: " ++ sid] }

/-! ### Pending index lemmas -/

theorem pendingHas_iff (idx : PendingIndex) (t : String) :
    idx.pendingHas t = true ↔
      ∃ e ∈ idx.pending_reviews, e.session_id = t := by
  simp [PendingIndex.pendingHas, List.any_eq_true]

theorem awaitingHas_iff (idx : PendingIndex) (t : String) :
    idx.awaitingHas t = true ↔
      ∃ e ∈ idx.reviewed_awaiting_generation, e.session_id = t := by
  simp [PendingIndex.awaitingHas, List.any_eq_true]

theorem exclusiveIdx_empty : ExclusiveIdx emptyIndex := by
  intro sid h
  simp [emptyIndex, PendingIndex.pendingHas] at h

theorem exclusive_load (st : Option PendingIndex) (h : Exclusive st) :
    ExclusiveIdx (loadIndexOrEmpty st) := by
  cases st with
  | none => exact exclusiveIdx_empty
  | some idx => exact h

/-- A guarded call preserves exclusivity of the index. -/
theorem exclusive_applyOp (st : Option PendingIndex) (op : IndexOp)
    (hst : Exclusive st) (hok : guardOk st op = true) :
    Exclusive (applyOp st op) := by
  cases op with
  | add sid created tc cn =>
    have hbase := exclusive_load st hst
    have hfree : (loadIndexOrEmpty st).awaitingHas sid = false := by
      simpa [guardOk] using hok
    intro t ht
    obtain ⟨hp, ha⟩ := ht
    rw [pendingHas_iff] at hp
    rw [awaitingHas_iff] at ha
    simp only [List.mem_append, List.mem_singleton] at hp
    obtain ⟨e, he, het⟩ := hp
    obtain ⟨a, ha2, hat⟩ := ha
    rcases he with he | rfl
    · exact hbase t ⟨(pendingHas_iff _ t).mpr ⟨e, he, het⟩,
        (awaitingHas_iff _ t).mpr ⟨a, ha2, hat⟩⟩
    · have hts : sid = t := het
      have hA : (loadIndexOrEmpty st).awaitingHas t = true :=
        (awaitingHas_iff _ t).mpr ⟨a, ha2, hat⟩
      rw [← hts, hfree] at hA
      exact Bool.false_ne_true hA
  | move sid r sc =>
    cases st with
    | none => trivial
    | some idx =>
      intro t ht
      obtain ⟨hp, ha⟩ := ht
      rw [pendingHas_iff] at hp
      rw [awaitingHas_iff] at ha
      simp only [List.mem_filter, List.mem_append, List.mem_singleton,
        bne_iff_ne] at hp ha
      obtain ⟨e, ⟨he, hne⟩, het⟩ := hp
      obtain ⟨a, ha2, hat⟩ := ha
      rcases ha2 with ha2 | rfl
      · exact hst t ⟨(pendingHas_iff idx t).mpr ⟨e, he, het⟩,
          (awaitingHas_iff idx t).mpr ⟨a, ha2, hat⟩⟩
      · exact hne (het.trans hat.symm)
  | remove sid =>
    cases st with
    | none => trivial
    | some idx =>
      intro t ht
      obtain ⟨hp, ha⟩ := ht
      rw [pendingHas_iff] at hp
      rw [awaitingHas_iff] at ha
      simp only [List.mem_filter, bne_iff_ne] at ha
      obtain ⟨a, ⟨ha2, _⟩, hat⟩ := ha
      exact hst t ⟨(pendingHas_iff idx t).mpr hp,
        (awaitingHas_iff idx t).mpr ⟨a, ha2, hat⟩⟩

/-- A guarded trace preserves exclusivity. -/
theorem exclusive_runOps (ops : List IndexOp) :
    ∀ st : Option PendingIndex, Exclusive st → okTrace st ops = true →
      Exclusive (runOps st ops) := by
  induction ops with
  | nil => exact fun st h _ => h
  | cons op rest ih =>
    intro st h hok
    rw [okTrace, Bool.and_eq_true] at hok
    exact ih (applyOp st op) (exclusive_applyOp st op h hok.1) hok.2

/-! ### Claim C2: idempotence of the index operations -/

/-- C2 counterexample: repeating `_add_to_pending_reviews` with the
same session id does not produce the same index as calling it once —
a duplicate entry is appended. -/
theorem c2_add_twice_differs :
    add_to_pending_reviews
        (add_to_pending_reviews (some emptyIndex) "s1" "t1" 3 "cfg")
        "s1" "t1" 3 "cfg"
      ≠ add_to_pending_reviews (some emptyIndex) "s1" "t1" 3 "cfg" := by
  decide

/-- C2 (amended): only `_remove_from_awaiting_generation` is
idempotent; `_add_to_pending_reviews` and
`_move_to_awaiting_generation` both append a duplicate entry when
repeated with the same session id, so repeating them never reproduces
the single-call result (for `move`, on an existing index file). -/
theorem c2_remove_idempotent_add_move_not :
    (∀ (st : Option PendingIndex) (sid : String),
      remove_from_awaiting_generation
          (remove_from_awaiting_generation st sid) sid
        = remove_from_awaiting_generation st sid) ∧
    (∀ (st : Option PendingIndex) (sid created : String) (tc : Nat)
        (cn : String),
      add_to_pending_reviews
          (add_to_pending_reviews st sid created tc cn) sid created tc cn
        ≠ add_to_pending_reviews st sid created tc cn) ∧
    (∀ (idx : PendingIndex) (sid r : String) (sc : Nat),
      move_to_awaiting_generation
          (move_to_awaiting_generation (some idx) sid r sc) sid r sc
        ≠ move_to_awaiting_generation (some idx) sid r sc) := by
  refine ⟨?_, ?_, ?_⟩
  · intro st sid
    cases st with
    | none => rfl
    | some idx =>
      simp [remove_from_awaiting_generation, List.filter_filter]
  · intro st sid created tc cn h
    have h2 := congrArg
      (fun o => (loadIndexOrEmpty o).pending_reviews.length) h
    simp [add_to_pending_reviews, loadIndexOrEmpty] at h2
  · intro idx sid r sc h
    have h2 := congrArg
      (fun o => (loadIndexOrEmpty o).reviewed_awaiting_generation.length) h
    simp [move_to_awaiting_generation, loadIndexOrEmpty] at h2

/-! ### Claim C3: exclusivity of the two index lists -/

/-- C3 counterexample: the state reached from the empty index by
`add s1; move s1; add s1` has `s1` in both lists simultaneously, so
exclusivity does not hold for every reachable state. -/
theorem c3_both_lists_reachable :
    (loadIndexOrEmpty (runOps (some emptyIndex)
        [IndexOp.add "s1" "t1" 3 "cfg", IndexOp.move "s1" "t2" 2,
         IndexOp.add "s1" "t3" 3 "cfg"])).pendingHas "s1" = true ∧
    (loadIndexOrEmpty (runOps (some emptyIndex)
        [IndexOp.add "s1" "t1" 3 "cfg", IndexOp.move "s1" "t2" 2,
         IndexOp.add "s1" "t3" 3 "cfg"])).awaitingHas "s1" = true := by
  decide

/-- C3 (amended): after `moveToAwaitingGeneration` the session id is
in `reviewed_awaiting_generation` and not in `pending_reviews`; and
exclusivity holds in every state reachable from the empty index by a
trace in which `add` never targets a session id currently in
`reviewed_awaiting_generation` — but not for arbitrary traces
(`add` after `move` puts the id in both lists). -/
theorem c3_move_post_and_guarded_exclusivity :
    (∀ (idx : PendingIndex) (sid r : String) (sc : Nat),
      ∃ idx2, move_to_awaiting_generation (some idx) sid r sc = some idx2 ∧
        idx2.awaitingHas sid = true ∧ idx2.pendingHas sid = false) ∧
    (∀ ops : List IndexOp, okTrace (some emptyIndex) ops = true →
      Exclusive (runOps (some emptyIndex) ops)) := by
  constructor
  · intro idx sid r sc
    refine ⟨_, rfl, ?_, ?_⟩
    · simp [PendingIndex.awaitingHas]
    · simp [PendingIndex.pendingHas, List.any_eq_false, List.mem_filter]
  · intro ops h
    exact exclusive_runOps ops (some emptyIndex) exclusiveIdx_empty h

/-- C3 witness: the amended theorem applied to the concrete lifecycle
trace `add s1; move s1`. -/
theorem c3_guarded_exclusivity_witness :
    okTrace (some emptyIndex)
      [IndexOp.add "s1" "t1" 2 "cfg", IndexOp.move "s1" "t2" 1] = true ∧
    Exclusive (runOps (some emptyIndex)
      [IndexOp.add "s1" "t1" 2 "cfg", IndexOp.move "s1" "t2" 1]) :=
  ⟨by decide, c3_move_post_and_guarded_exclusivity.2 _ (by decide)⟩

/-! ### Claim C7: behaviour on a missing index file -/

/-- C7 counterexample: with no index file,
`_move_to_awaiting_generation` writes nothing — it does not produce
the index that the same call on an empty index produces, and the
session id is not registered anywhere. -/
theorem c7_move_missing_file_noop :
    move_to_awaiting_generation none "s1" "t1" 2 = none ∧
    move_to_awaiting_generation none "s1" "t1" 2
      ≠ move_to_awaiting_generation (some emptyIndex) "s1" "t1" 2 ∧
    (loadIndexOrEmpty
        (move_to_awaiting_generation none "s1" "t1" 2)).awaitingHas "s1"
      = false := by
  decide

/-- C7 (amended): only `_add_to_pending_reviews` treats a missing
index file as two empty lists; `_move_to_awaiting_generation` and
`_remove_from_awaiting_generation` return without writing anything
when the file is missing.  For `remove` the no-op coincides with
acting on an empty index; for `move` it does not register the session
id at all. -/
theorem c7_missing_file_behaviour :
    (∀ (sid created : String) (tc : Nat) (cn : String),
      add_to_pending_reviews none sid created tc cn
        = add_to_pending_reviews (some emptyIndex) sid created tc cn) ∧
    (∀ (sid r : String) (sc : Nat),
      move_to_awaiting_generation none sid r sc = none) ∧
    (∀ sid : String, remove_from_awaiting_generation none sid = none) ∧
    (∀ sid : String,
      remove_from_awaiting_generation (some emptyIndex) sid
        = some emptyIndex) :=
  ⟨fun _ _ _ _ => rfl, fun _ _ _ => rfl, fun _ => rfl, fun _ => rfl⟩

/-! ### Concrete fixtures for the closed theorems -/

/-- A concrete configuration (the defaulted fields keep their dataclass
defaults). -/
def testConfig : OrchestratorConfig :=
  { name := "Test Pipeline"
    global_mode := "test"
    idea_source := "gmail"
    idea_start_date := none
    idea_label := none
    idea_email_subject := none
    idea_focus := none
    idea_folder_id := none
    idea_combined_topics := false
    idea_fast_mode := false
    doc_style := ""
    doc_audience := "testers"
    doc_type := "blog post"
    doc_size := "800 words"
    doc_customer_story := none
    doc_output := "./output"
    doc_mode_override := none
    stage1_timeout := 600
    stage2_timeout := 300
    retry_on_failure := true
    save_session := true }

/-! ### Claim C4: session-store round trip and created_at -/

/-- Later saves of one session, each reading the previous record,
keep its non-empty `created_at`. -/
theorem saveMany_created_at (cfg : OrchestratorConfig)
    (configFile : Option String) (sid : String) (rest : List SaveArgs) :
    ∀ first : SessionState, first.created_at ≠ "" →
      (saveMany cfg configFile sid first rest).created_at
        = first.created_at := by
  induction rest with
  | nil => intro first _; rfl
  | cons a rest ih =>
    intro first h
    have hstep : (save_session_state (some first) cfg configFile sid
        a.now a.stage a.topics a.selected a.documents).created_at
        = first.created_at := by
      simp [save_session_state, h]
    have h2 := ih
      (save_session_state (some first) cfg configFile sid a.now a.stage
        a.topics a.selected a.documents)
      (by rw [hstep]; exact h)
    rw [show saveMany cfg configFile sid first (a :: rest)
        = saveMany cfg configFile sid
            (save_session_state (some first) cfg configFile sid a.now
              a.stage a.topics a.selected a.documents) rest from rfl]
    rw [h2, hstep]

/-- C4: saving then loading by id returns exactly the written record,
whose non-timestamp fields are the inputs and whose `updated_at` is
the save time; saving the same data again changes only `updated_at`;
and the `created_at` of the first save (a non-empty timestamp) is
carried forward unchanged by every sequence of later saves. -/
theorem c4_save_load_roundtrip_created_at :
    (∀ (prior : Option SessionState) (cfg : OrchestratorConfig)
        (configFile : Option String) (sid now stage : String)
        (topics : Option (List TopicMeta))
        (selected : Option (List SelectedTopic))
        (documents : Option (List DocumentResult)),
      load_session_state sid
          (some (save_session_state prior cfg configFile sid now stage
            topics selected documents))
        = Except.ok (save_session_state prior cfg configFile sid now
            stage topics selected documents) ∧
      (save_session_state prior cfg configFile sid now stage topics
          selected documents).session_id = sid ∧
      (save_session_state prior cfg configFile sid now stage topics
          selected documents).stage = stage ∧
      (save_session_state prior cfg configFile sid now stage topics
          selected documents).config_snapshot = cfg ∧
      (save_session_state prior cfg configFile sid now stage topics
          selected documents).topics = topics.getD [] ∧
      (save_session_state prior cfg configFile sid now stage topics
          selected documents).selected_topics = selected ∧
      (save_session_state prior cfg configFile sid now stage topics
          selected documents).generated_documents = documents.getD [] ∧
      (save_session_state prior cfg configFile sid now stage topics
          selected documents).updated_at = now) ∧
    (∀ (cfg : OrchestratorConfig) (configFile : Option String)
        (sid t1 t2 stage : String) (topics : Option (List TopicMeta))
        (selected : Option (List SelectedTopic))
        (documents : Option (List DocumentResult)),
      t1 ≠ "" →
      save_session_state
          (some (save_session_state none cfg configFile sid t1 stage
            topics selected documents))
          cfg configFile sid t2 stage topics selected documents
        = { save_session_state none cfg configFile sid t1 stage topics
              selected documents with updated_at := t2 }) ∧
    (∀ (cfg : OrchestratorConfig) (configFile : Option String)
        (sid t1 stage : String) (topics : Option (List TopicMeta))
        (selected : Option (List SelectedTopic))
        (documents : Option (List DocumentResult)) (rest : List SaveArgs),
      t1 ≠ "" →
      (saveMany cfg configFile sid
          (save_session_state none cfg configFile sid t1 stage topics
            selected documents) rest).created_at = t1) := by
  refine ⟨?_, ?_, ?_⟩
  · intro prior cfg configFile sid now stage topics selected documents
    exact ⟨rfl, rfl, rfl, rfl, rfl, rfl, rfl, rfl⟩
  · intro cfg configFile sid t1 t2 stage topics selected documents h
    simp [save_session_state, h]
  · intro cfg configFile sid t1 stage topics selected documents rest h
    exact saveMany_created_at cfg configFile sid rest _ h

/-- C4 witness: the round trip and `created_at` preservation evaluated
on one concrete session saved at three successive times. -/
theorem c4_roundtrip_witness :
    save_session_state
        (some (save_session_state none testConfig none "s1"
          "2025-01-01T00:00:00" "ideas_generated" none none none))
        testConfig none "s1" "2025-01-02T00:00:00" "ideas_generated"
        none none none
      = { save_session_state none testConfig none "s1"
            "2025-01-01T00:00:00" "ideas_generated" none none none with
          updated_at := "2025-01-02T00:00:00" } ∧
    (saveMany testConfig none "s1"
        (save_session_state none testConfig none "s1"
          "2025-01-01T00:00:00" "ideas_generated" none none none)
        [⟨"2025-01-02T00:00:00", "reviewed", none, some [], none⟩,
         ⟨"2025-01-03T00:00:00", "completed", none, some [], some []⟩]
      ).created_at = "2025-01-01T00:00:00" :=
  ⟨c4_save_load_roundtrip_created_at.2.1 testConfig none "s1"
      "2025-01-01T00:00:00" "2025-01-02T00:00:00" "ideas_generated"
      none none none (by decide),
   c4_save_load_roundtrip_created_at.2.2 testConfig none "s1"
      "2025-01-01T00:00:00" "ideas_generated" none none none _
      (by decide)⟩

/-! ### Claims C1 and C6: `run_generate_documents` preconditions -/

/-- A stored session at stage `completed`. -/
def completedSession : SessionState :=
  { session_id := "20250101_000000"
    config_file := none
    config_snapshot := testConfig
    stage := "completed"
    created_at := "2025-01-01T00:00:00"
    updated_at := "2025-01-01T01:00:00"
    topics := []
    selected_topics := some [⟨"T1", "sessions/20250101_000000/topics/topic_1_a.md"⟩]
    generated_documents := [⟨"T1", "success", some "ok", none⟩] }

/-- A stored session at stage `ideas_generated`. -/
def ideasSession : SessionState :=
  { completedSession with
    stage := "ideas_generated"
    selected_topics := none
    generated_documents := [] }

/-- C1 counterexample: on a stored session at stage `completed`,
`run_generate_documents` returns exit code 1 — not success — and its
output reports an error. -/
theorem c1_completed_returns_error :
    (run_generate_documents none (some completedSession) none []
        "2025-01-02T00:00:00" "20250101_000000").exit = 1 ∧
    (run_generate_documents none (some completedSession) none []
        "2025-01-02T00:00:00" "20250101_000000").messages
      = ["Error: Session 20250101_000000 is in stage 'completed', expected 'reviewed'",
         "Session already completed."] := by
  decide

/-- C1 (amended): on a session stored at stage `completed`,
`run_generate_documents` reports an error (exit code 1, with an error
line followed by the informational `Session already completed.`), and
leaves the stored session — `generated_documents` included — and the
pending index unchanged. -/
theorem c1_completed_error_without_mutation (configPath : Option String)
    (state : SessionState) (indexFile : Option PendingIndex)
    (exec : List DocExec) (now sid : String)
    (h : state.stage = "completed") :
    (run_generate_documents configPath (some state) indexFile exec now
        sid).exit = 1 ∧
    (run_generate_documents configPath (some state) indexFile exec now
        sid).sessionFile = some state ∧
    (run_generate_documents configPath (some state) indexFile exec now
        sid).indexFile = indexFile ∧
    (run_generate_documents configPath (some state) indexFile exec now
        sid).messages
      = ["Error: Session " ++ sid ++ " is in stage '" ++ state.stage ++
           "', expected 'reviewed'",
         "Session already completed."] := by
  refine ⟨?_, ?_, ?_, ?_⟩ <;> simp [run_generate_documents, h]

/-- C1 witness: the amended theorem evaluated at the concrete
completed session. -/
theorem c1_completed_witness :
    (run_generate_documents none (some completedSession) none []
        "2025-01-02T00:00:00" "s9").exit = 1 ∧
    (run_generate_documents none (some completedSession) none []
        "2025-01-02T00:00:00" "s9").sessionFile = some completedSession ∧
    (run_generate_documents none (some completedSession) none []
        "2025-01-02T00:00:00" "s9").indexFile = none ∧
    (run_generate_documents none (some completedSession) none []
        "2025-01-02T00:00:00" "s9").messages
      = ["Error: Session s9 is in stage 'completed', expected 'reviewed'",
         "Session already completed."] := by
  have h := c1_completed_error_without_mutation none completedSession none
    [] "2025-01-02T00:00:00" "s9" (by decide)
  exact ⟨h.1, h.2.1, h.2.2.1, by rw [h.2.2.2]; decide⟩

/-- C6: on a session stored at stage `ideas_generated`,
`run_generate_documents` fails with exit code 1 and an error line, and
performs no save: the stored session (its stage in particular) and the
pending index are unchanged. -/
theorem c6_ideas_generated_error_without_mutation
    (configPath : Option String) (state : SessionState)
    (indexFile : Option PendingIndex) (exec : List DocExec)
    (now sid : String) (h : state.stage = "ideas_generated") :
    (run_generate_documents configPath (some state) indexFile exec now
        sid).exit = 1 ∧
    (run_generate_documents configPath (some state) indexFile exec now
        sid).sessionFile = some state ∧
    ((run_generate_documents configPath (some state) indexFile exec now
        sid).sessionFile.map fun s => s.stage) = some "ideas_generated" ∧
    (run_generate_documents configPath (some state) indexFile exec now
        sid).indexFile = indexFile ∧
    (run_generate_documents configPath (some state) indexFile exec now
        sid).messages
      = ["Error: Session " ++ sid ++ " is in stage '" ++ state.stage ++
           "', expected 'reviewed'",
         "Session not yet reviewed. Use --review to select topics first."] := by
  refine ⟨?_, ?_, ?_, ?_, ?_⟩ <;> simp [run_generate_documents, h]

/-- C6 witness: the theorem evaluated at the concrete session at stage
`ideas_generated`. -/
theorem c6_ideas_generated_witness :
    (run_generate_documents none (some ideasSession) none []
        "2025-01-02T00:00:00" "s8").exit = 1 ∧
    (run_generate_documents none (some ideasSession) none []
        "2025-01-02T00:00:00" "s8").sessionFile = some ideasSession ∧
    ((run_generate_documents none (some ideasSession) none []
        "2025-01-02T00:00:00" "s8").sessionFile.map fun s => s.stage)
      = some "ideas_generated" ∧
    (run_generate_documents none (some ideasSession) none []
        "2025-01-02T00:00:00" "s8").indexFile = none ∧
    (run_generate_documents none (some ideasSession) none []
        "2025-01-02T00:00:00" "s8").messages
      = ["Error: Session s8 is in stage 'ideas_generated', expected 'reviewed'",
         "Session not yet reviewed. Use --review to select topics first."] := by
  have h := c6_ideas_generated_error_without_mutation none ideasSession
    none [] "2025-01-02T00:00:00" "s8" (by decide)
  exact ⟨h.1, h.2.1, h.2.2.1, h.2.2.2.1, by rw [h.2.2.2.2]; decide⟩

/-! ### Claim C5: bounded insight/quote counters -/

/-- A manifest whose single topic carries eleven key insights. -/
def elevenInsightManifest : Manifest :=
  { status := "success"
    timestamp := "2025-01-01T00:00:00"
    mode := "test"
    model := "m"
    topics :=
      [{ id := "topic_1"
         title := "T1"
         description := "d"
         file := "work/topic_1_a.md"
         key_insights :=
           ["i1", "i2", "i3", "i4", "i5", "i6", "i7", "i8", "i9", "i10",
            "i11"]
         notable_quotes := []
         word_count := 10 }] }

/-- C5 counterexample: the manifest strategy stores the raw
`key_insights` length — eleven here — so `insights_count` is not
capped at 10. -/
theorem c5_manifest_count_exceeds_cap :
    ((parse_topics_from_manifest elevenInsightManifest
        ["sessions/s/topics/topic_1_a.md"]).map fun t =>
      t.insights_count) = [11] ∧ ¬ (11 ≤ 10) := by
  decide

/-- C5 (amended): the markdown strategy caps `insights_count` and
`quotes_count` at 10; the manifest strategy records the exact
`key_insights`/`notable_quotes` list lengths, which are not capped
(and the empty-dict default gives 0). -/
theorem c5_md_capped_manifest_exact (files : List (String × String))
    (m : Manifest) (fs : List String) :
    (∀ t ∈ parse_topic_files files,
      t.insights_count ≤ 10 ∧ t.quotes_count ≤ 10) ∧
    (∀ t ∈ parse_topics_from_manifest m fs,
      (∀ md, t.manifest_data = some md →
        t.insights_count = md.key_insights.length ∧
        t.quotes_count = md.notable_quotes.length) ∧
      (t.manifest_data = none →
        t.insights_count = 0 ∧ t.quotes_count = 0)) := by
  constructor
  · intro t ht
    simp only [parse_topic_files, List.mem_map] at ht
    obtain ⟨fc, _, rfl⟩ := ht
    exact ⟨min_le_right _ _, min_le_right _ _⟩
  · intro t ht
    simp only [parse_topics_from_manifest, List.mem_map] at ht
    obtain ⟨fp, _, rfl⟩ := ht
    rcases hmd : topicMapLookup m (pathName fp) with _ | md <;>
      simp [hmd]

/-- C5 witness: the amended theorem evaluated on a concrete markdown
topic file and the concrete manifest. -/
theorem c5_counts_witness :
    ((parse_topic_file_md "topics/topic_1_a.md"
        "# T\n## Key Insights\n- a\n- b").insights_count ≤ 10 ∧
     (parse_topic_file_md "topics/topic_1_a.md"
        "# T\n## Key Insights\n- a\n- b").quotes_count ≤ 10) :=
  (c5_md_capped_manifest_exact
      [("topics/topic_1_a.md", "# T\n## Key Insights\n- a\n- b")]
      elevenInsightManifest []).1 _
    (by simp [parse_topic_files])

/-! ### Claim C8: one timeout in a batch of three -/

/-- The Document Result `_run_stage2` records for one benign
invocation outcome (a timeout, or a completed run taken as clean). -/
def benignDoc (cfg : OrchestratorConfig) (p : SelectedTopic × DocExec) :
    DocumentResult :=
  match p.2 with
  | .timedOut =>
    { topic := p.1.title, status := "failed",
      error := some ("Timeout after " ++ toString cfg.stage2_timeout ++
        " seconds") }
  | .completed _ out _ =>
    { topic := p.1.title, status := "success", output := some out }

/-- When every invocation outcome is benign, `_run_stage2` raises
nothing and returns one Document Result per topic, in order. -/
theorem run_stage2_benign (cfg : OrchestratorConfig) :
    ∀ ps : List (SelectedTopic × DocExec),
      (∀ p ∈ ps, p.2.isBenign = true) →
      run_stage2 cfg ps = Except.ok (ps.map (benignDoc cfg)) := by
  intro ps
  induction ps with
  | nil => intro _; rfl
  | cons p rest ih =>
    intro h
    obtain ⟨t, r⟩ := p
    have hr : r.isBenign = true := h ⟨t, r⟩ (List.mem_cons_self _ _)
    have hrest := ih fun q hq => h q (List.mem_cons_of_mem _ hq)
    cases r with
    | timedOut =>
      simp [run_stage2, runDocGenerator, hrest, benignDoc]
    | completed rc out err =>
      have hrc : rc = 0 := by simpa [DocExec.isBenign] using hr
      subst hrc
      simp [run_stage2, runDocGenerator, hrest, benignDoc]

/-- Splitting a list by a Boolean predicate partitions its length. -/
theorem length_filter_add_length_filter_not {α : Type} (p : α → Bool)
    (l : List α) :
    (l.filter p).length + (l.filter fun a => !(p a)).length = l.length := by
  induction l with
  | nil => rfl
  | cons a l ih =>
    cases h : p a <;> simp [List.filter_cons, h] <;> omega

/-- A mapped benign batch fails exactly at the timeouts. -/
theorem filter_benignDoc_failed (cfg : OrchestratorConfig)
    (ps : List (SelectedTopic × DocExec)) :
    (ps.map (benignDoc cfg)).filter (fun d => d.status == "failed")
      = (ps.filter fun p => p.2.isTimeout).map (benignDoc cfg) := by
  rw [List.filter_map]
  congr 1
  apply List.filter_congr
  intro p _
  obtain ⟨t, r⟩ := p
  cases r <;> simp [benignDoc, DocExec.isTimeout, Function.comp]

/-- A mapped benign batch succeeds exactly at the non-timeouts. -/
theorem filter_benignDoc_success (cfg : OrchestratorConfig)
    (ps : List (SelectedTopic × DocExec)) :
    (ps.map (benignDoc cfg)).filter (fun d => d.status == "success")
      = (ps.filter fun p => !(p.2.isTimeout)).map (benignDoc cfg) := by
  rw [List.filter_map]
  congr 1
  apply List.filter_congr
  intro p _
  obtain ⟨t, r⟩ := p
  cases r <;> simp [benignDoc, DocExec.isTimeout, Function.comp]

/-- C8: when exactly one of three document-generator invocations times
out and the other two complete cleanly, `_run_stage2` returns three
Document Results: one `failed` whose error names the configured
timeout duration, and two `success`. -/
theorem c8_one_timeout_of_three (cfg : OrchestratorConfig)
    (ps : List (SelectedTopic × DocExec))
    (hlen : ps.length = 3)
    (hbenign : ∀ p ∈ ps, p.2.isBenign = true)
    (hone : (ps.filter fun p => p.2.isTimeout).length = 1) :
    ∃ ds, run_stage2 cfg ps = Except.ok ds ∧ ds.length = 3 ∧
      (ds.filter fun d => d.status == "failed").length = 1 ∧
      (ds.filter fun d => d.status == "success").length = 2 ∧
      ∀ d ∈ ds, d.status = "failed" →
        d.error = some ("Timeout after " ++ toString cfg.stage2_timeout
          ++ " seconds") ∧
        mentions ("Timeout after " ++ toString cfg.stage2_timeout
          ++ " seconds") (toString cfg.stage2_timeout) := by
  refine ⟨ps.map (benignDoc cfg), run_stage2_benign cfg ps hbenign,
    by simp [hlen], ?_, ?_, ?_⟩
  · rw [filter_benignDoc_failed, List.length_map, hone]
  · rw [filter_benignDoc_success, List.length_map]
    have := length_filter_add_length_filter_not
      (fun p : SelectedTopic × DocExec => p.2.isTimeout) ps
    omega
  · intro d hd hfail
    rw [List.mem_map] at hd
    obtain ⟨p, _, rfl⟩ := hd
    obtain ⟨t, r⟩ := p
    cases r with
    | completed rc out err => simp [benignDoc] at hfail
    | timedOut =>
      exact ⟨rfl, "Timeout after ", " seconds", rfl⟩

/-- C8 witness: the theorem evaluated on a concrete batch of three
selected topics in which exactly the second invocation times out. -/
theorem c8_one_timeout_witness :
    ∃ ds, run_stage2 testConfig
        [(⟨"T1", "topics/t1.md"⟩, DocExec.completed 0 "ok1" ""),
         (⟨"T2", "topics/t2.md"⟩, DocExec.timedOut),
         (⟨"T3", "topics/t3.md"⟩, DocExec.completed 0 "ok3" "")]
      = Except.ok ds ∧ ds.length = 3 ∧
      (ds.filter fun d => d.status == "failed").length = 1 ∧
      (ds.filter fun d => d.status == "success").length = 2 ∧
      ∀ d ∈ ds, d.status = "failed" →
        d.error = some ("Timeout after " ++
          toString testConfig.stage2_timeout ++ " seconds") ∧
        mentions ("Timeout after " ++ toString testConfig.stage2_timeout
          ++ " seconds") (toString testConfig.stage2_timeout) :=
  c8_one_timeout_of_three testConfig
    [(⟨"T1", "topics/t1.md"⟩, DocExec.completed 0 "ok1" ""),
     (⟨"T2", "topics/t2.md"⟩, DocExec.timedOut),
     (⟨"T3", "topics/t3.md"⟩, DocExec.completed 0 "ok3" "")]
    (by decide) (by decide) (by decide)

/-! ### Claim C9: idea-generator failure leaves no session -/

/-- C9: when the idea generator exits with a non-zero code,
`_run_stage1` returns the empty topic list (it does not raise), and
`run_generate_ideas` then exits with code 1 leaving the session state
file and the pending index exactly as they were — no session is saved
and no index entry is created. -/
theorem c9_stage1_failure_no_session (cfg : OrchestratorConfig)
    (res : Stage1Exec) (manifestFile : Option Manifest)
    (topicsDir : String) (exPred : String → Bool)
    (primary secondary : List String) (configPath : Option String)
    (sid now : String) (sessionFile : Option SessionState)
    (indexFile : Option PendingIndex) (read : String → String)
    (globTopics : List String)
    (h : res.returncode ≠ 0) :
    run_stage1 cfg res manifestFile topicsDir exPred primary secondary
      = [] ∧
    (run_generate_ideas cfg configPath sid now sessionFile indexFile res
        manifestFile topicsDir exPred primary secondary read
        globTopics).exit = 1 ∧
    (run_generate_ideas cfg configPath sid now sessionFile indexFile res
        manifestFile topicsDir exPred primary secondary read
        globTopics).sessionFile = sessionFile ∧
    (run_generate_ideas cfg configPath sid now sessionFile indexFile res
        manifestFile topicsDir exPred primary secondary read
        globTopics).indexFile = indexFile := by
  have h1 : run_stage1 cfg res manifestFile topicsDir exPred primary
      secondary = [] := by
    cases hb : cfg.batch_mode <;> simp [run_stage1, hb, h]
  refine ⟨h1, ?_, ?_, ?_⟩ <;> simp [run_generate_ideas, h1]

/-- C9 witness: the theorem evaluated on the mock failure scenario —
exit code 1 with stderr `Error: Mock failure`. -/
theorem c9_stage1_failure_witness :
    run_stage1 testConfig ⟨1, "", "Error: Mock failure"⟩ none
      "sessions/s1/topics" (fun _ => false) [] [] = [] ∧
    (run_generate_ideas testConfig none "s1" "2025-01-01T00:00:00" none
        none ⟨1, "", "Error: Mock failure"⟩ none "sessions/s1/topics"
        (fun _ => false) [] [] (fun _ => "") []).exit = 1 ∧
    (run_generate_ideas testConfig none "s1" "2025-01-01T00:00:00" none
        none ⟨1, "", "Error: Mock failure"⟩ none "sessions/s1/topics"
        (fun _ => false) [] [] (fun _ => "") []).sessionFile = none ∧
    (run_generate_ideas testConfig none "s1" "2025-01-01T00:00:00" none
        none ⟨1, "", "Error: Mock failure"⟩ none "sessions/s1/topics"
        (fun _ => false) [] [] (fun _ => "") []).indexFile = none :=
  c9_stage1_failure_no_session testConfig ⟨1, "", "Error: Mock failure"⟩
    none "sessions/s1/topics" (fun _ => false) [] [] none "s1"
    "2025-01-01T00:00:00" none none (fun _ => "") [] (by decide)

/-! ### Claim C10: topic lists are returned sorted -/

/-- C10: both topic-sourcing strategies pass their collected file list
through `sorted` before returning, so the Topic Records downstream are
in lexicographic path order, regardless of manifest listing order or
filesystem discovery order. -/
theorem c10_topic_lists_sorted :
    (∀ (topicsDir : String) (exPred : String → Bool) (m : Manifest),
      List.Sorted (· ≤ ·) (load_topics_from_manifest topicsDir exPred m)) ∧
    (∀ (topicsDir : String) (primary secondary : List String),
      List.Sorted (· ≤ ·) (discover_topic_files topicsDir primary
        secondary)) := by
  constructor
  · intro topicsDir exPred m
    exact List.sorted_mergeSort' _
  · intro topicsDir primary secondary
    exact List.sorted_mergeSort' _

end DocOrchestrator
